import Mathlib

/-!
A shallow embedding of the thumbnail pipeline of the `exposure` static
image-gallery generator (Python sources under `src/generator/`), together
with theorems settling the frozen claims about it.

Modelling conventions:
* File contents are abstract byte sequences (`List Nat`); file sizes are
  byte-sequence lengths; modification times and timestamps are integers.
* External collaborators (PIL image codec, SHA-256, base64, the piexif tag
  library) are modelled as explicit function parameters bundled in an
  `Oracles` record; dataflow and control flow of the repository's own code
  are translated statement by statement.
* Python exceptions are `Except PyErr`; a `try/except Exception` block is a
  `match` that maps any `.error` to the fallback value.
* Machine floats appear only as `st_mtime` (modelled as integer ticks) and
  in `calculate_thumbnail_dimensions`'s aspect-ratio division (modelled as
  exact rational division with floor, following the spec's own reading
  "exact aspect-ratio division and rounding down").
-/

namespace Exposure

/-- The Python exceptions the embedding distinguishes. -/
inductive PyErr where
  /-- `FileNotFoundError` -/
  | fileNotFound
  /-- `AttributeError` (attribute access on a missing pydantic field) -/
  | attributeError
  /-- `UnboundLocalError` (reading a local variable never assigned) -/
  | unboundLocal
  /-- `ValueError`, including pydantic `ValidationError` -/
  | valueError
  /-- `PIL.UnidentifiedImageError` -/
  | unidentifiedImage
  deriving DecidableEq, Repr

/-- `CONTENT_HASH_LENGTH` from constants.py -/
def contentHashLength : Nat := 8

/-- `CACHE_VERSION` from constants.py -/
def cacheVersion : String := "1.0"

/-- `calculate_thumbnail_dimensions` from thumbnails.py.

Python computes `aspect_ratio = source_width / source_height` in floating
point and then `int(max_dimension / aspect_ratio)` (resp.
`int(max_dimension * aspect_ratio)`); for positive operands `int` truncates
downward, so this is modelled as exact rational division with floor, i.e.
the natural-number divisions below. -/
def calculate_thumbnail_dimensions (source_width source_height max_dimension : Nat) :
    Nat × Nat :=
  -- No upscaling - if source is smaller, keep original dimensions
  if max source_width source_height ≤ max_dimension then
    (source_width, source_height)
  else if source_height ≤ source_width then
    -- Landscape or square - width is limiting dimension
    (max_dimension, max_dimension * source_height / source_width)
  else
    -- Portrait - height is limiting dimension
    (max_dimension * source_width / source_height, max_dimension)

/-! ### Strings and paths -/

/-- Python string slicing `s[:n]` (by characters; the strings sliced here are
ASCII hex digests). -/
def pyStrTake (n : Nat) (s : String) : String := ⟨s.data.take n⟩

/-- `pat` is a leading block of `l`. -/
def charsHasPre (pat l : List Char) : Bool :=
  match pat, l with
  | [], _ => true
  | _ :: _, [] => false
  | p :: ps, c :: cs => p == c && charsHasPre ps cs

/-- `pat` is a trailing block of `l`. -/
def charsHasSuf (pat l : List Char) : Bool :=
  charsHasPre pat.reverse l.reverse

/-- `pat` occurs contiguously somewhere in `l`. -/
def charsContain (pat : List Char) : List Char → Bool
  | [] => charsHasPre pat []
  | c :: cs => charsHasPre pat (c :: cs) || charsContain pat cs

/-- Python's substring test `needle in name`. -/
def strContainsSub (name needle : String) : Bool :=
  charsContain needle.data name.data

/-- `pathlib.Path(p).name`: the final path component (everything after the
last `/`). Trailing separators are not modelled (no claim exercises them). -/
def pathBaseName (p : String) : String :=
  ⟨(p.data.reverse.takeWhile (· ≠ '/')).reverse⟩

/-- Position of the last `.` in a name, if any. -/
def lastDotPos (cs : List Char) : Option Nat :=
  ((List.range cs.length).filter (fun i => cs.getD i ' ' == '.')).getLast?

/-- `pathlib.Path(p).stem`: the final component without its last suffix; a dot
in first or last position does not start a suffix (pathlib's rule). -/
def pathStem (p : String) : String :=
  let name := pathBaseName p
  match lastDotPos name.data with
  | some i => if 0 < i ∧ i + 1 < name.data.length then ⟨name.data.take i⟩ else name
  | none => name

/-- Hex-lowercase characters, as produced by `hashlib...hexdigest()`. -/
def isHexLowerChar (c : Char) : Bool := "0123456789abcdef".data.contains c

/-! ### Filesystem model -/

/-- One file on disk: abstract content bytes and an `st_mtime` in integer
ticks. `st_size` is the length of `bytes`. -/
structure FileData where
  bytes : List Nat
  mtime : Int
  deriving DecidableEq, Repr

/-- The world the pipeline runs against: a filesystem (path ↦ file) and the
current clock (`datetime.now()`), in integer ticks. Output files written by
the generator are not added back into `files`; no modelled code path re-reads
its own fresh writes. -/
structure Sys where
  files : List (String × FileData)
  now : Int
  deriving DecidableEq, Repr

/-- `Path.exists` / open: look a path up in the filesystem. -/
def Sys.file? (s : Sys) (p : String) : Option FileData :=
  s.files.lookup p

/-! ### PIL image model -/

/-- A decoded PIL image: the attributes the pipeline reads. Pixel data is
abstract; `exifOrientation` models `img.getexif().get(274)`. -/
structure PILImg where
  width : Nat
  height : Nat
  mode : String
  format : Option String
  exifOrientation : Option Int
  isAnimated : Bool
  frameCount : Nat
  deriving DecidableEq, Repr

/-! ### Metadata filter (metadata_filter.py) -/

/-- `SENSITIVE_EXIF_TAGS`: BodySerialNumber, LensSerialNumber, ImageUniqueID. -/
def SENSITIVE_EXIF_TAGS : List Nat := [0xA431, 0xA435, 0xA420]

/-- `SENSITIVE_0TH_TAGS`: Artist, Copyright, Software, HostComputer, XPAuthor,
XPComment, JPEGInterchangeFormat, JPEGInterchangeFormatLength. -/
def SENSITIVE_0TH_TAGS : List Nat :=
  [0x013B, 0x8298, 0x0131, 0x013C, 0x9C9D, 0x9C9C, 0x0201, 0x0202]

/-- `SAFE_0TH_TAGS`: Orientation, Make, Model, DateTime, XResolution,
YResolution, ResolutionUnit. -/
def SAFE_0TH_TAGS : List Nat :=
  [0x0112, 0x010F, 0x0110, 0x0132, 0x011A, 0x011B, 0x0128]

/-- `SAFE_EXIF_TAGS`: DateTimeOriginal, DateTimeDigitized, LensModel, LensMake,
FNumber, ExposureTime, ISOSpeedRatings, FocalLength, ColorSpace. -/
def SAFE_EXIF_TAGS : List Nat :=
  [0x9003, 0x9004, 0xA434, 0xA433, 0x829D, 0x829A, 0x8827, 0x920A, 0xA001]

/-- The dictionary returned by `piexif.load`: named groups of numeric tag ↦
(abstract) value, plus the embedded thumbnail bytes. A group that is `none`
models the absence of the corresponding dictionary key (piexif.load populates
all of them; `pop` removes one). `thumbnail` is the value under the
`"thumbnail"` key (`none` models Python `None`). -/
structure ExifDict where
  zeroth : Option (List (Nat × Nat))
  exifIfd : Option (List (Nat × Nat))
  gps : Option (List (Nat × Nat))
  interop : Option (List (Nat × Nat))
  firstIfd : Option (List (Nat × Nat))
  thumbnail : Option (List Nat)
  deriving DecidableEq, Repr

/-- `_remove_sensitive_tags` from metadata_filter.py: keep only allow-listed
tags in the Exif and 0th IFDs (when those keys are present); other groups are
untouched. -/
def remove_sensitive_tags (d : ExifDict) : ExifDict :=
  { d with
    exifIfd := d.exifIfd.map (·.filter (fun tv => SAFE_EXIF_TAGS.contains tv.1)),
    zeroth := d.zeroth.map (·.filter (fun tv => SAFE_0TH_TAGS.contains tv.1)) }

/-- The exception-free core of `filter_metadata`: the transformation applied to
a successfully loaded tag structure (`exif_dict.pop("GPS", None)`, then
`_remove_sensitive_tags`, then `exif_dict["thumbnail"] = None`). -/
def filter_metadata_dict (d : ExifDict) : ExifDict :=
  let d1 : ExifDict := { d with gps := none }
  let d2 := remove_sensitive_tags d1
  { d2 with thumbnail := none }

/-- The tag groups `piexif.dump` serializes into the output blob. -/
structure DumpedGroups where
  zeroth : List (Nat × Nat)
  exifIfd : List (Nat × Nat)
  gps : List (Nat × Nat)
  interop : List (Nat × Nat)
  firstIfd : List (Nat × Nat)
  deriving DecidableEq, Repr

/-- Which tags `piexif.dump` writes, by group: the 0th, Exif, GPS and Interop
groups are serialized whenever present (an absent or empty group contributes
no tags), while the 1st IFD is serialized only together with an embedded
thumbnail (piexif's `dump` guards it with `("1st" in exif_dict) and
("thumbnail" in exif_dict) and (exif_dict["thumbnail"] is not None)`).
Structural pointer tags inserted by the serializer itself are not modelled. -/
def piexif_dump_groups (d : ExifDict) : DumpedGroups :=
  { zeroth := d.zeroth.getD []
    exifIfd := d.exifIfd.getD []
    gps := d.gps.getD []
    interop := d.interop.getD []
    firstIfd := if d.thumbnail.isSome then d.firstIfd.getD [] else [] }

/-! ### Configuration models (model.py)

Python `int` fields that are non-negative by construction (dimensions, sizes,
qualities) are modelled as `Nat`; a negative value read from JSON behaves,
through every `> 0` check and validator modelled here, exactly like `0`. -/

/-- `ThumbnailConfig` from model.py (validated fields only; the resampling
filter never influences a claim). -/
structure ThumbnailConfig where
  max_dimension : Nat
  webp_quality : Nat
  jpeg_quality : Nat
  output_dir : String
  enable_cache : Bool
  cache_file : String
  deriving DecidableEq, Repr

/-- `BlurPlaceholderConfig` from model.py. Field validators admit
`target_size ∈ [10,50]`, `blur_radius ∈ [5,20]`, `jpeg_quality ∈ [1,100]`,
`max_size_bytes ∈ [100,2000]`. -/
structure BlurPlaceholderConfig where
  enabled : Bool
  target_size : Nat
  blur_radius : Nat
  jpeg_quality : Nat
  max_size_bytes : Nat
  deriving DecidableEq, Repr

/-! ### Build cache (cache.py) -/

/-- `CacheEntry` from cache.py, with exactly the fields its pydantic model
declares. -/
structure CacheEntry where
  source_path : String
  source_mtime : Int
  webp_path : String
  jpeg_path : String
  content_hash : String
  thumbnail_generated_at : Int
  metadata_stripped : Bool
  width : Nat
  height : Nat
  webp_size_bytes : Nat
  jpeg_size_bytes : Nat
  source_size_bytes : Nat
  blur_placeholder_hash : Option String
  blur_placeholder_generated_at : Option Int
  deriving DecidableEq, Repr

/-- The field names the pydantic `CacheEntry` model declares. -/
def cacheEntryFieldNames : List String :=
  ["source_path", "source_mtime", "webp_path", "jpeg_path", "content_hash",
   "thumbnail_generated_at", "metadata_stripped", "width", "height",
   "webp_size_bytes", "jpeg_size_bytes", "source_size_bytes",
   "blur_placeholder_hash", "blur_placeholder_generated_at"]

/-- Python attribute access `cache_entry.<name>` on the pydantic model:
raises `AttributeError` unless `name` is a declared field.
`_load_from_cache` reads `blur_placeholder_data_url`,
`blur_placeholder_dimensions` and `blur_placeholder_size_bytes`, none of
which `CacheEntry` declares. -/
def cacheEntryAttr (name : String) : Except PyErr Unit :=
  if cacheEntryFieldNames.contains name then .ok () else .error .attributeError

/-- `CacheEntry.is_valid` from cache.py. -/
def CacheEntry.is_valid (e : CacheEntry) (current_source_hash : String)
    (blur_config_enabled : Bool) : Bool :=
  if blur_config_enabled && e.blur_placeholder_hash.isNone then false
  else if e.content_hash != current_source_hash then false
  else true

/-- `BuildCache` from cache.py. The Python dict of entries is an association
list in which assignment prepends (later bindings shadow earlier ones). -/
structure BuildCache where
  entries : List (String × CacheEntry)
  cache_version : String
  last_updated : Int
  deriving DecidableEq, Repr

/-- `BuildCache()` with pydantic defaults: empty entries, current version,
`last_updated = datetime.now()`. -/
def BuildCache.empty (now : Int) : BuildCache :=
  { entries := [], cache_version := cacheVersion, last_updated := now }

/-- `BuildCache.should_regenerate` from cache.py: `source_path.stat()` raises
`FileNotFoundError` when an entry exists but the file does not. -/
def should_regenerate (c : BuildCache) (s : Sys) (p : String) :
    Except PyErr Bool :=
  match c.entries.lookup p with
  | none => .ok true
  | some e =>
    match s.file? p with
    | none => .error .fileNotFound
    | some fd => .ok (decide (e.source_mtime < fd.mtime))

/-- The outcome of reading and parsing the cache file in
`ThumbnailGenerator.load_cache`:
file absent, `json.loads`/pydantic failure (`json.JSONDecodeError` or
`ValueError`, which includes `ValidationError`), or a successfully validated
document. A document whose entries fail validation maps to `.malformed`
whatever its version field says; `load_cache` returns the empty cache for it
on either route. -/
inductive CacheFileRead where
  | notFound
  | malformed
  | parsed (version : Option String) (entries : List (String × CacheEntry))
      (lastUpdated : Int)
  deriving DecidableEq, Repr

/-- `ThumbnailGenerator.load_cache` from thumbnails.py:
missing file → fresh empty cache; version mismatch
(`cache_data.get("cache_version") != CACHE_VERSION`) → empty cache; parse or
validation error → empty cache; otherwise the parsed cache. -/
def load_cache (s : Sys) (r : CacheFileRead) : BuildCache :=
  match r with
  | .notFound => BuildCache.empty s.now
  | .malformed => BuildCache.empty s.now
  | .parsed v es lu =>
    if v ≠ some cacheVersion then BuildCache.empty s.now
    else { entries := es, cache_version := cacheVersion, last_updated := lu }

/-! ### External-collaborator oracles -/

/-- The external libraries the pipeline calls, as abstract functions:
SHA-256 hex digest, the PIL codec (decode, EXIF transpose, in-place
`thumbnail` resize, encoded output sizes, raw JPEG bytes), base64, and
piexif parse/serialize. -/
structure Oracles where
  sha256hex : List Nat → String
  decode : List Nat → Option PILImg
  exifTranspose : PILImg → PILImg
  resizeTo : PILImg → Nat → Nat → PILImg
  webpLen : PILImg → Nat → Nat
  jpegLen : PILImg → Nat → Nat
  jpegBytes : PILImg → Nat → List Nat
  b64 : List Nat → String
  piexifLoad : List Nat → Option ExifDict
  piexifDumpBytes : ExifDict → List Nat

/-- `hash_bytes` from utils.py: first `CONTENT_HASH_LENGTH` characters of the
SHA-256 hex digest. -/
def hash_bytes (o : Oracles) (data : List Nat) : String :=
  pyStrTake contentHashLength (o.sha256hex data)

/-- `hash_file` from utils.py streams the same digest over the file's bytes;
the existence check is discharged by the caller holding the `FileData`. -/
def hash_file (o : Oracles) (fd : FileData) : String :=
  hash_bytes o fd.bytes

/-- `filter_metadata` from metadata_filter.py: `None` when `piexif.load`
raises, otherwise the filtered structure re-serialized by `piexif.dump`
(a dump failure, also caught as `None`, is not modelled — the dump oracle is
total). -/
def filter_metadata (o : Oracles) (srcBytes : List Nat) : Option (List Nat) :=
  match o.piexifLoad srcBytes with
  | none => none
  | some d => some (o.piexifDumpBytes (filter_metadata_dict d))

/-! ### Pipeline data models with pydantic validation (model.py) -/

/-- `BlurPlaceholder` from model.py. -/
structure BlurPlaceholder where
  data_url : String
  size_bytes : Nat
  dimensions : Nat × Nat
  blur_radius : Nat
  source_hash : String
  generated_at : Int
  deriving DecidableEq, Repr

/-- The pydantic validators of `BlurPlaceholder`: data-URL prefix and length
bounds, size budget, dimension bounds, blur-radius bounds, and the
`^[a-f0-9]{8}$` pattern on `source_hash`. -/
def BlurPlaceholder.pydValid (b : BlurPlaceholder) : Bool :=
  50 ≤ b.data_url.length && b.data_url.length ≤ 2000 &&
  b.data_url.startsWith "data:image/jpeg;base64," &&
  b.size_bytes ≤ 2000 &&
  max b.dimensions.1 b.dimensions.2 ≤ 50 && 5 ≤ min b.dimensions.1 b.dimensions.2 &&
  5 ≤ b.blur_radius && b.blur_radius ≤ 20 &&
  b.source_hash.length == 8 && b.source_hash.data.all isHexLowerChar

/-- Constructing a `BlurPlaceholder(...)`: pydantic raises `ValidationError`
(a `ValueError`) when a validator fails. -/
def mkBlurPlaceholder (b : BlurPlaceholder) : Except PyErr BlurPlaceholder :=
  if b.pydValid then .ok b else .error .valueError

/-- `ThumbnailImage` from model.py. -/
structure ThumbnailImage where
  source_filename : String
  source_path : String
  webp_path : String
  jpeg_path : String
  width : Nat
  height : Nat
  webp_size_bytes : Nat
  jpeg_size_bytes : Nat
  source_size_bytes : Nat
  content_hash : String
  generated_at : Int
  metadata_stripped : Bool
  metadata_strip_warning : Option String
  blur_placeholder : Option BlurPlaceholder
  deriving DecidableEq, Repr

/-- The pydantic validators of `ThumbnailImage`: non-empty filename, strictly
positive dimensions and byte sizes, content hash of length exactly 8. -/
def ThumbnailImage.pydValid (t : ThumbnailImage) : Bool :=
  1 ≤ t.source_filename.length &&
  0 < t.width && 0 < t.height &&
  0 < t.webp_size_bytes && 0 < t.jpeg_size_bytes && 0 < t.source_size_bytes &&
  t.content_hash.length == 8

/-- Constructing a `ThumbnailImage(...)`. -/
def mkThumbnailImage (t : ThumbnailImage) : Except PyErr ThumbnailImage :=
  if t.pydValid then .ok t else .error .valueError

/-- `ImageMetadata` from model.py (the `dpi` pair and YAML-facing fields never
influence a claim and carry no constraint used here). -/
structure ImageMetadata where
  filename : String
  file_path : String
  format : String
  width : Nat
  height : Nat
  file_size_bytes : Nat
  color_mode : String
  has_transparency : Bool
  exif_orientation : Option Int
  is_animated : Bool
  frame_count : Nat
  deriving DecidableEq, Repr

/-- The pydantic validators of `ImageMetadata`. -/
def ImageMetadata.pydValid (m : ImageMetadata) : Bool :=
  1 ≤ m.filename.length && 0 < m.width && 0 < m.height &&
  0 < m.file_size_bytes &&
  (match m.exif_orientation with
   | none => true
   | some x => 1 ≤ x && x ≤ 8) &&
  1 ≤ m.frame_count

/-- Constructing an `ImageMetadata(...)`. -/
def mkImageMetadata (m : ImageMetadata) : Except PyErr ImageMetadata :=
  if m.pydValid then .ok m else .error .valueError

/-! ### Blur placeholder generation (thumbnails.py) -/

/-- One encode of the loop body of `_optimize_data_url_size`:
`data:image/jpeg;base64,` followed by the base64 of the JPEG bytes at the
given quality. -/
def dataUrlAt (o : Oracles) (img : PILImg) (quality : Nat) : String :=
  "data:image/jpeg;base64," ++ o.b64 (o.jpegBytes img quality)

/-- The `while quality >= 10` loop of `_optimize_data_url_size`. `lastUrl` is
the Python local `data_url`: assigned each iteration, read after the loop.
When the loop body never ran, that read raises `UnboundLocalError`. -/
def optimizeLoop (o : Oracles) (img : PILImg) (max_size_bytes : Nat)
    (quality : Nat) (lastUrl : Option String) : Except PyErr (String × Nat) :=
  if h : 10 ≤ quality then
    let url := dataUrlAt o img quality
    if url.length ≤ max_size_bytes then .ok (url, url.length)
    else optimizeLoop o img max_size_bytes (quality - 10) (some url)
  else
    -- after the loop: "return smallest possible even if over budget"
    match lastUrl with
    | some url => .ok (url, url.length)
    | none => .error .unboundLocal
  termination_by quality
  decreasing_by omega

/-- `_optimize_data_url_size` from thumbnails.py. -/
def optimize_data_url_size (o : Oracles) (img : PILImg) (max_size_bytes : Nat)
    (initial_quality : Nat) : Except PyErr (String × Nat) :=
  optimizeLoop o img max_size_bytes initial_quality none

/-- The RGB conversion inside `generate_blur_placeholder` (compositing onto a
white background for `RGBA`/`LA`/`P`, `convert("RGB")` otherwise); pixel
contents are abstract, dimensions are unchanged. -/
def blurConvertRgb (img : PILImg) : PILImg :=
  if !(["RGB", "L"].contains img.mode) then
    if ["RGBA", "LA", "P"].contains img.mode then { img with mode := "RGB" }
    else { img with mode := "RGB" }
  else img

/-- The body of `generate_blur_placeholder` before its `except Exception`
handler. -/
def blurAttempt (o : Oracles) (s : Sys) (source_path : String)
    (config : BlurPlaceholderConfig) : Except PyErr BlurPlaceholder := do
  let fd ← match s.file? source_path with
    | none => Except.error PyErr.fileNotFound   -- PILImage.open on a missing file
    | some fd => pure fd
  let img ← match o.decode fd.bytes with
    | none => Except.error PyErr.unidentifiedImage
    | some img => pure img
  let img := o.exifTranspose img
  let img := blurConvertRgb img
  let img := o.resizeTo img config.target_size config.target_size
  let r ← optimize_data_url_size o img config.max_size_bytes config.jpeg_quality
  let source_hash := hash_file o fd
  mkBlurPlaceholder
    { data_url := r.1, size_bytes := r.2, dimensions := (img.width, img.height),
      blur_radius := config.blur_radius, source_hash, generated_at := s.now }

/-- `generate_blur_placeholder` from thumbnails.py: any exception in the body
is caught, logged, and turned into `None`. -/
def generate_blur_placeholder (o : Oracles) (s : Sys) (source_path : String)
    (config : BlurPlaceholderConfig) : Option BlurPlaceholder :=
  match blurAttempt o s source_path config with
  | .ok b => some b
  | .error _ => none

/-! ### Stale-thumbnail cleanup (thumbnails.py) -/

/-- The filename `_save_thumbnails` derives: `{stem}-{content_hash}{ext}`. -/
def thumbFilename (stem chash ext : String) : String :=
  stem ++ "-" ++ chash ++ ext

/-- `output_dir.glob(f"{stem}-*{ext}")` applied to one directory-listing name:
it matches iff the name is `stem ++ "-" ++ middle ++ ext` for some (possibly
empty) `middle`. -/
def globMatch (stem ext name : String) : Bool :=
  charsHasPre (stem ++ "-").data name.data &&
  charsHasSuf ext.data name.data &&
  decide ((stem ++ "-").length + ext.length ≤ name.length)

/-- `_cleanup_old_thumbnails` from thumbnails.py, as the list of names it
unlinks from the output directory `listing`: every glob match for
`{stem}-*.webp` and `{stem}-*.jpg` whose name does not contain
`current_hash` as a substring (`if current_hash not in old_file.name`).
`OSError`s from `unlink` are caught and logged. -/
def cleanup_old_thumbnails (listing : List String) (stem current_hash : String) :
    List String :=
  (listing.filter (globMatch stem ".webp") ++
    listing.filter (globMatch stem ".jpg")).filter
    (fun n => ! strContainsSub n current_hash)

/-! ### The orchestrator (thumbnails.py, class ThumbnailGenerator) -/

/-- `ThumbnailGenerator.extract_metadata`. -/
def extract_metadata (o : Oracles) (s : Sys) (source_path : String) :
    Except PyErr ImageMetadata := do
  let fd ← match s.file? source_path with
    | none => Except.error PyErr.fileNotFound   -- validate_file_exists
    | some fd => pure fd
  let img ← match o.decode fd.bytes with
    | none => Except.error PyErr.unidentifiedImage
    | some img => pure img
  mkImageMetadata
    { filename := pathBaseName source_path, file_path := source_path,
      format := img.format.getD "UNKNOWN",
      width := img.width, height := img.height,
      file_size_bytes := fd.bytes.length,
      color_mode := img.mode,
      has_transparency := img.mode.data.contains 'A',  -- `img.info` is not modelled
      exif_orientation := img.exifOrientation,
      is_animated := img.isAnimated, frame_count := img.frameCount }

/-- `_convert_to_rgb`: mode conversion for JPEG compatibility; dimensions are
unchanged, pixel contents abstract. -/
def convert_to_rgb (img : PILImg) : PILImg :=
  if ["RGBA", "LA", "P"].contains img.mode then { img with mode := "RGB" }
  else if !(["RGB", "L"].contains img.mode) then { img with mode := "RGB" }
  else img

/-- `_prepare_image`: EXIF transpose, first frame for animations (frame choice
is abstract), RGB conversion. -/
def prepare_image (o : Oracles) (img : PILImg) : PILImg :=
  convert_to_rgb (o.exifTranspose img)

/-- `_create_thumbnail`: compute target dimensions, then PIL's in-place
`thumbnail` resize. -/
def create_thumbnail (o : Oracles) (cfg : ThumbnailConfig) (img : PILImg) :
    PILImg :=
  let dims := calculate_thumbnail_dimensions img.width img.height cfg.max_dimension
  o.resizeTo img dims.1 dims.2

/-- The values `_save_thumbnails` returns plus the sizes of the files it wrote
(read back by `stat` in `_build_thumbnail_result`). -/
structure SaveOutcome where
  webp_path : String
  jpeg_path : String
  metadata_stripped : Bool
  strip_warning : Option String
  webp_size : Nat
  jpeg_size : Nat
  deriving DecidableEq, Repr

/-- `_save_thumbnails` from thumbnails.py. `_cleanup_old_thumbnails` (modelled
separately by `cleanup_old_thumbnails`) only unlinks files from the output
directory, absorbing `OSError`s; it contributes nothing to these values. -/
def save_thumbnails (o : Oracles) (cfg : ThumbnailConfig) (thumb : PILImg)
    (source_path : String) (content_hash : String) (srcBytes : List Nat) :
    SaveOutcome :=
  let stem := pathStem source_path
  let cleaned := filter_metadata o srcBytes
  { webp_path := cfg.output_dir ++ "/" ++ thumbFilename stem content_hash ".webp"
    jpeg_path := cfg.output_dir ++ "/" ++ thumbFilename stem content_hash ".jpg"
    metadata_stripped := cleaned.isSome
    strip_warning :=
      if cleaned.isSome then none
      else some ("Metadata filtering failed for " ++ pathBaseName source_path)
    webp_size := o.webpLen thumb cfg.webp_quality
    jpeg_size := o.jpegLen thumb cfg.jpeg_quality }

/-- The body of `generate_thumbnail`'s `try` block: metadata extraction, hash,
decode, transform, save, `_build_thumbnail_result` (including the optional
blur placeholder and the pydantic construction of the result). -/
def generate_fresh (o : Oracles) (cfg : ThumbnailConfig)
    (bcfg : BlurPlaceholderConfig) (s : Sys) (source_path : String)
    (fd : FileData) : Except PyErr ThumbnailImage := do
  let metadata ← extract_metadata o s source_path
  let content_hash := hash_bytes o fd.bytes   -- hash_bytes(source_path.read_bytes())
  let img ← match o.decode fd.bytes with
    | none => Except.error PyErr.unidentifiedImage  -- PILImage.open(source_path)
    | some img => pure img
  let img := prepare_image o img
  let thumb := create_thumbnail o cfg img
  let sv := save_thumbnails o cfg thumb source_path content_hash fd.bytes
  let blur := if bcfg.enabled then generate_blur_placeholder o s source_path bcfg
    else none
  mkThumbnailImage
    { source_filename := pathBaseName source_path, source_path,
      webp_path := sv.webp_path, jpeg_path := sv.jpeg_path,
      width := thumb.width, height := thumb.height,
      webp_size_bytes := sv.webp_size, jpeg_size_bytes := sv.jpeg_size,
      source_size_bytes := metadata.file_size_bytes,
      content_hash, generated_at := s.now,
      metadata_stripped := sv.metadata_stripped,
      metadata_strip_warning := sv.strip_warning,
      blur_placeholder := blur }

/-- `BuildCache.update_entry`: overwrite the entry for this path with fields
from the fresh record and bump `last_updated`. -/
def BuildCache.update_entry (c : BuildCache) (s : Sys) (p : String)
    (fd : FileData) (t : ThumbnailImage) : BuildCache :=
  { c with
    entries :=
      (p,
        { source_path := p, source_mtime := fd.mtime,
          webp_path := t.webp_path, jpeg_path := t.jpeg_path,
          content_hash := t.content_hash,
          thumbnail_generated_at := t.generated_at,
          metadata_stripped := t.metadata_stripped,
          width := t.width, height := t.height,
          webp_size_bytes := t.webp_size_bytes,
          jpeg_size_bytes := t.jpeg_size_bytes,
          source_size_bytes := t.source_size_bytes,
          blur_placeholder_hash := t.blur_placeholder.map (·.source_hash),
          blur_placeholder_generated_at :=
            t.blur_placeholder.map (·.generated_at) }) :: c.entries,
    last_updated := s.now }

/-- `ThumbnailGenerator._load_from_cache`. The pydantic `ThumbnailImage`
construction at its end, and the attribute reads in its blur block, happen
outside any `try`, so their exceptions propagate to the caller. -/
def load_from_cache (o : Oracles) (bcfg : BlurPlaceholderConfig)
    (cache : BuildCache) (s : Sys) (source_path : String) (fd : FileData) :
    Except PyErr (Option ThumbnailImage) := do
  match cache.entries.lookup source_path with
  | none => pure none
  | some cache_entry =>
    let current_hash := hash_file o fd
    if !(cache_entry.is_valid current_hash bcfg.enabled) then pure none
    else
      match s.file? cache_entry.webp_path, s.file? cache_entry.jpeg_path with
      | some webp_fd, some jpeg_fd =>
        -- cached dimensions (cache v2+) or slow path reopening the thumbnail
        let dims? : Option (Nat × Nat × Nat × Nat × Nat) :=
          if 0 < cache_entry.width ∧ 0 < cache_entry.height then
            some (cache_entry.width, cache_entry.height,
              cache_entry.webp_size_bytes, cache_entry.jpeg_size_bytes,
              cache_entry.source_size_bytes)
          else
            match o.decode webp_fd.bytes with
            | some thumb => some (thumb.width, thumb.height,
                webp_fd.bytes.length, jpeg_fd.bytes.length, fd.bytes.length)
            | none => none   -- unreadable cached thumbnail → invalidate
        match dims? with
        | none => pure none
        | some (tw, th, wsz, jsz, ssz) => do
          let blur ← do
            if bcfg.enabled then do
              -- `if (cache_entry.blur_placeholder_data_url and ...)`:
              -- the first attribute read raises (no such declared field)
              let _ ← cacheEntryAttr "blur_placeholder_data_url"
              -- unreachable: with the fields absent-but-falsy the code
              -- would fall back to regeneration
              pure (generate_blur_placeholder o s source_path bcfg)
            else pure none
          (mkThumbnailImage
            { source_filename := pathBaseName source_path,
              source_path := source_path,
              webp_path := cache_entry.webp_path,
              jpeg_path := cache_entry.jpeg_path,
              width := tw, height := th,
              webp_size_bytes := wsz, jpeg_size_bytes := jsz,
              source_size_bytes := ssz,
              content_hash := cache_entry.content_hash,
              generated_at := cache_entry.thumbnail_generated_at,
              metadata_stripped := cache_entry.metadata_stripped,
              metadata_strip_warning := none,
              blur_placeholder := blur }).map some
      | _, _ => pure none   -- missing output files → regenerate

/-- `ThumbnailGenerator.generate_thumbnail`. Returns the (possibly updated)
build cache together with the result; `None` models a skipped/failed image.
Only the body from `try:` down is absorbed into `None`; the existence check,
the cache consultation and `_load_from_cache` are outside it. -/
def generate_thumbnail (o : Oracles) (cfg : ThumbnailConfig)
    (bcfg : BlurPlaceholderConfig) (cache : BuildCache) (s : Sys)
    (source_path : String) :
    Except PyErr (BuildCache × Option ThumbnailImage) := do
  let fd ← match s.file? source_path with
    | none => Except.error PyErr.fileNotFound   -- validate_file_exists
    | some fd => pure fd
  let hit ← do
    if cfg.enable_cache then do
      let sr ← should_regenerate cache s source_path
      if !sr then load_from_cache o bcfg cache s source_path fd else pure none
    else pure none
  match hit with
  | some cached => pure (cache, some cached)
  | none =>
    match generate_fresh o cfg bcfg s source_path fd with
    | .error _ => pure (cache, none)   -- except Exception: log, return None
    | .ok t =>
      pure ((if cfg.enable_cache then cache.update_entry s source_path fd t
        else cache), some t)

/-- `ThumbnailGenerator.generate_batch`: sequential processing; a raised
exception sends the path to `failed`, a `None` result silently skips it; the
cache threads through successful generations. The generated/cached counters
and the progress callback only feed logging, but the counters' call to
`should_regenerate` happens inside the per-item `try` and can itself raise.
The final `save_cache` writes the cache file and is not modelled. -/
def generate_batch (o : Oracles) (cfg : ThumbnailConfig)
    (bcfg : BlurPlaceholderConfig) (cache : BuildCache) (s : Sys) :
    List String → BuildCache × List ThumbnailImage × List String
  | [] => (cache, [], [])
  | p :: rest =>
    let step : Except PyErr (BuildCache × Option ThumbnailImage) := do
      let _needs_regen ←
        if cfg.enable_cache then should_regenerate cache s p else pure true
      generate_thumbnail o cfg bcfg cache s p
    match step with
    | .error _ =>
      let r := generate_batch o cfg bcfg cache s rest
      (r.1, r.2.1, p :: r.2.2)
    | .ok (cache', t?) =>
      let r := generate_batch o cfg bcfg cache' s rest
      (r.1, (match t? with | some t => t :: r.2.1 | none => r.2.1), r.2.2)

end Exposure

namespace Exposure

/-- Claim C3 as stated is false: at (w, h, max_dim) = (1000, 15, 100) the source
is larger than max_dim, the function returns (100, 1), and the returned aspect
ratio 100 differs from the source ratio 1000/15 by far more than 1/100. -/
theorem c3_counterexample :
    100 < max 1000 15 ∧
    ¬ |((calculate_thumbnail_dimensions 1000 15 100).1 : ℚ) /
        ((calculate_thumbnail_dimensions 1000 15 100).2 : ℚ) - (1000 : ℚ) / 15| <
      1 / 100 := by
  have hv : calculate_thumbnail_dimensions 1000 15 100 = (100, 1) := by decide
  refine ⟨by decide, ?_⟩
  have hr : ((calculate_thumbnail_dimensions 1000 15 100).1 : ℚ) /
      ((calculate_thumbnail_dimensions 1000 15 100).2 : ℚ) - (1000 : ℚ) / 15 =
      100 / 3 := by
    rw [hv]; norm_num
  rw [hr, not_lt, abs_of_nonneg (by norm_num : (0 : ℚ) ≤ 100 / 3)]
  norm_num

/-- Claim C3, amended: the 1/100 aspect-ratio bound holds provided the rounding
is fine enough, namely when 100 · max(w, h) ≤ min(w, h) · min(w', h'); for
extreme aspect ratios (see `c3_counterexample`) the bound fails. -/
theorem c3_amended (w h m : Nat) (hw : 0 < w) (hh : 0 < h) (hm : 0 < m)
    (hbig : m < max w h)
    (hfine : 100 * max w h ≤
      min w h * min (calculate_thumbnail_dimensions w h m).1
                    (calculate_thumbnail_dimensions w h m).2) :
    |((calculate_thumbnail_dimensions w h m).1 : ℚ) /
      ((calculate_thumbnail_dimensions w h m).2 : ℚ) - (w : ℚ) / h| < 1 / 100 := by
  have hnofit : ¬ max w h ≤ m := by omega
  have hhQ : (0 : ℚ) < (h : ℚ) := by exact_mod_cast hh
  rcases le_or_lt h w with hlw | hlw
  · -- landscape or square: thumb = (m, m*h/w)
    have hdef : calculate_thumbnail_dimensions w h m = (m, m * h / w) := by
      unfold calculate_thumbnail_dimensions
      rw [if_neg hnofit, if_pos hlw]
    set q := m * h / w with hqdef
    have hqle : q ≤ m := by
      have : m * h ≤ m * w := Nat.mul_le_mul_left m hlw
      calc q ≤ m * w / w := Nat.div_le_div_right this
        _ = m := Nat.mul_div_cancel m hw
    have hfine' : 100 * w ≤ h * q := by
      rw [hdef] at hfine
      simpa [max_eq_left hlw, min_eq_right hlw, min_eq_right hqle] using hfine
    have hqpos : 0 < q := by
      rcases Nat.eq_zero_or_pos q with h0 | h0
      · rw [h0, Nat.mul_zero] at hfine'; omega
      · exact h0
    have h1 : q * w ≤ m * h := Nat.div_mul_le_self (m * h) w
    have h2 : m * h < w * q + w := by
      have hdm := Nat.div_add_mod (m * h) w
      have hmod := Nat.mod_lt (m * h) hw
      rw [← hqdef] at hdm
      omega
    have hqQ : (0 : ℚ) < (q : ℚ) := by exact_mod_cast hqpos
    have c1 : (q : ℚ) * w ≤ (m : ℚ) * h := by exact_mod_cast h1
    have c2 : (m : ℚ) * h < (w : ℚ) * q + w := by exact_mod_cast h2
    have c3 : 100 * (w : ℚ) ≤ (h : ℚ) * q := by exact_mod_cast hfine'
    rw [hdef]
    simp only
    have hnn : (0 : ℚ) ≤ (m : ℚ) / (q : ℚ) - (w : ℚ) / h := by
      rw [sub_nonneg, div_le_div_iff hhQ hqQ]
      nlinarith
    rw [abs_of_nonneg hnn, div_sub_div _ _ hqQ.ne' hhQ.ne',
      div_lt_div_iff (by positivity) (by norm_num)]
    nlinarith
  · -- portrait: thumb = (m*w/h, m)
    have hdef : calculate_thumbnail_dimensions w h m = (m * w / h, m) := by
      unfold calculate_thumbnail_dimensions
      rw [if_neg hnofit, if_neg (Nat.not_le.mpr hlw)]
    set q := m * w / h with hqdef
    have hqle : q ≤ m := by
      have : m * w ≤ m * h := Nat.mul_le_mul_left m hlw.le
      calc q ≤ m * h / h := Nat.div_le_div_right this
        _ = m := Nat.mul_div_cancel m hh
    have hfine' : 100 * h ≤ w * q := by
      rw [hdef] at hfine
      simpa [max_eq_right hlw.le, min_eq_left hlw.le, min_eq_left hqle] using hfine
    have hqpos : 0 < q := by
      rcases Nat.eq_zero_or_pos q with h0 | h0
      · rw [h0, Nat.mul_zero] at hfine'; omega
      · exact h0
    have h1 : q * h ≤ m * w := Nat.div_mul_le_self (m * w) h
    have h2 : m * w < h * q + h := by
      have hdm := Nat.div_add_mod (m * w) h
      have hmod := Nat.mod_lt (m * w) hh
      rw [← hqdef] at hdm
      omega
    have hm100 : 100 ≤ m := by
      have t1 : 100 * h * h ≤ w * q * h := Nat.mul_le_mul_right h hfine'
      have t2 : w * (q * h) ≤ w * (m * w) := Nat.mul_le_mul_left w h1
      have t3 : m * w * w ≤ m * h * h :=
        Nat.mul_le_mul (Nat.mul_le_mul_left m hlw.le) hlw.le
      have t4 : 100 * (h * h) ≤ m * (h * h) := by nlinarith
      exact Nat.le_of_mul_le_mul_right (by nlinarith) (Nat.mul_pos hh hh)
    have hmQ : (0 : ℚ) < (m : ℚ) := by exact_mod_cast hm
    have c1 : (q : ℚ) * h ≤ (m : ℚ) * w := by exact_mod_cast h1
    have c2 : (m : ℚ) * w < (h : ℚ) * q + h := by exact_mod_cast h2
    have c3 : (100 : ℚ) ≤ (m : ℚ) := by exact_mod_cast hm100
    rw [hdef]
    simp only
    have hnp : (q : ℚ) / (m : ℚ) - (w : ℚ) / h ≤ 0 := by
      rw [sub_nonpos, div_le_div_iff hmQ hhQ]
      nlinarith
    rw [abs_of_nonpos hnp, neg_sub, div_sub_div _ _ hhQ.ne' hmQ.ne',
      div_lt_div_iff (by positivity) (by norm_num)]
    nlinarith

/-- Witness for `c3_amended` at (4000, 3000, 800) → (800, 600). -/
theorem c3_amended_witness :
    (800 < max 4000 3000 ∧
      100 * max 4000 3000 ≤
        min 4000 3000 * min (calculate_thumbnail_dimensions 4000 3000 800).1
                            (calculate_thumbnail_dimensions 4000 3000 800).2) ∧
    |((calculate_thumbnail_dimensions 4000 3000 800).1 : ℚ) /
      ((calculate_thumbnail_dimensions 4000 3000 800).2 : ℚ) - (4000 : ℚ) / 3000| <
      1 / 100 :=
  ⟨⟨by decide, by decide⟩,
    c3_amended 4000 3000 800 (by decide) (by decide) (by decide) (by decide)
      (by decide)⟩

/-- Claim C5: no upscaling when the source already fits. -/
theorem c5_no_upscaling (w h m : Nat) (hw : 0 < w) (hh : 0 < h) (hm : 0 < m)
    (hfit : max w h ≤ m) :
    calculate_thumbnail_dimensions w h m = (w, h) := by
  unfold calculate_thumbnail_dimensions
  simp [hfit]

/-- Witness for `c5_no_upscaling` at (600, 400, 800). -/
theorem c5_no_upscaling_witness :
    calculate_thumbnail_dimensions 600 400 800 = (600, 400) :=
  c5_no_upscaling 600 400 800 (by decide) (by decide) (by decide) (by decide)

/-- A tag structure whose Interop group holds the InteroperabilityIndex tag
(tag 1), which is on neither allow-list. -/
def c4SampleDict : ExifDict :=
  { zeroth := some [], exifIfd := some [], gps := some [],
    interop := some [(1, 0)], firstIfd := some [], thumbnail := none }

/-- Claim C4 as stated is false: `filter_metadata` leaves the Interop group
untouched, and `piexif.dump` serializes it, so the sanitized blob can contain
a tag (here tag 1, InteroperabilityIndex) that is on neither allow-list. -/
theorem c4_counterexample :
    (1, 0) ∈ (piexif_dump_groups (filter_metadata_dict c4SampleDict)).interop ∧
    1 ∉ SAFE_EXIF_TAGS ∧ 1 ∉ SAFE_0TH_TAGS ∧
    ¬ ∀ tv ∈ (piexif_dump_groups (filter_metadata_dict c4SampleDict)).interop,
        tv.1 ∈ SAFE_EXIF_TAGS ∨ tv.1 ∈ SAFE_0TH_TAGS := by
  decide

/-- Claim C4, amended: for every loaded tag structure the sanitized blob has no
GPS group, no embedded thumbnail (and with it no 1st IFD), and in the 0th and
Exif groups only allow-listed tags — hence none of the deny-listed tags there;
the Interop group, however, is passed through unfiltered
(`c4_counterexample`). -/
theorem c4_amended (d : ExifDict) :
    (piexif_dump_groups (filter_metadata_dict d)).gps = [] ∧
    (piexif_dump_groups (filter_metadata_dict d)).firstIfd = [] ∧
    (∀ tv ∈ (piexif_dump_groups (filter_metadata_dict d)).zeroth,
      tv.1 ∈ SAFE_0TH_TAGS ∧ tv.1 ∉ SENSITIVE_0TH_TAGS) ∧
    (∀ tv ∈ (piexif_dump_groups (filter_metadata_dict d)).exifIfd,
      tv.1 ∈ SAFE_EXIF_TAGS ∧ tv.1 ∉ SENSITIVE_EXIF_TAGS) ∧
    (piexif_dump_groups (filter_metadata_dict d)).interop = d.interop.getD [] := by
  have hdisj0 : ∀ t ∈ SAFE_0TH_TAGS, t ∉ SENSITIVE_0TH_TAGS := by decide
  have hdisjE : ∀ t ∈ SAFE_EXIF_TAGS, t ∉ SENSITIVE_EXIF_TAGS := by decide
  refine ⟨rfl, rfl, ?_, ?_, rfl⟩
  · intro tv htv
    rcases hz : d.zeroth with _ | l
    · simp [piexif_dump_groups, filter_metadata_dict, remove_sensitive_tags,
        hz] at htv
    · simp only [piexif_dump_groups, filter_metadata_dict,
        remove_sensitive_tags, hz, Option.map_some', Option.getD_some,
        List.mem_filter] at htv
      have hmem : tv.1 ∈ SAFE_0TH_TAGS := by simpa using htv.2
      exact ⟨hmem, hdisj0 _ hmem⟩
  · intro tv htv
    rcases hz : d.exifIfd with _ | l
    · simp [piexif_dump_groups, filter_metadata_dict, remove_sensitive_tags,
        hz] at htv
    · simp only [piexif_dump_groups, filter_metadata_dict,
        remove_sensitive_tags, hz, Option.map_some', Option.getD_some,
        List.mem_filter] at htv
      have hmem : tv.1 ∈ SAFE_EXIF_TAGS := by simpa using htv.2
      exact ⟨hmem, hdisjE _ hmem⟩

/-- Claim C6: a version mismatch, and likewise any parse or validation error,
yields the empty build cache — never a partially-trusted one. -/
theorem c6_load_cache_fail_safe (s : Sys) (v : Option String)
    (es : List (String × CacheEntry)) (lu : Int)
    (hv : v ≠ some cacheVersion) :
    (load_cache s (.parsed v es lu)).entries = [] ∧
    (load_cache s .malformed).entries = [] ∧
    (load_cache s .notFound).entries = [] := by
  refine ⟨?_, rfl, rfl⟩
  simp [load_cache, hv, BuildCache.empty]

/-- A 64-character lowercase hex digest used as the constant output of the
sample hash oracle. -/
def sampleHash : String :=
  "0123456789abcdef0123456789abcdef0123456789abcdef0123456789abcdef"

/-- A concrete decodable image for witnesses. -/
def sampleImg : PILImg :=
  { width := 10, height := 8, mode := "RGB", format := some "JPEG",
    exifOrientation := none, isAnimated := false, frameCount := 1 }

/-- Concrete collaborator oracles for witnesses and counterexamples: the byte
sequence `[1]` decodes to `sampleImg`, everything else is garbage. -/
def sampleOracles : Oracles :=
  { sha256hex := fun _ => sampleHash
    decode := fun bs => if bs = [1] then some sampleImg else none
    exifTranspose := id
    resizeTo := fun img w h => { img with width := max 1 (min img.width w), height := max 1 (min img.height h) }
    webpLen := fun _ _ => 100
    jpegLen := fun _ _ => 120
    jpegBytes := fun _ _ => [0, 1, 2]
    b64 := fun _ => "QUJD"
    piexifLoad := fun _ => none
    piexifDumpBytes := fun _ => [] }

/-- A concrete cache entry used by several witnesses. -/
def sampleEntry : CacheEntry :=
  { source_path := "photos/a.jpg", source_mtime := 100,
    webp_path := "thumbs/a-01234567.webp", jpeg_path := "thumbs/a-01234567.jpg",
    content_hash := "01234567", thumbnail_generated_at := 50,
    metadata_stripped := true, width := 10, height := 8,
    webp_size_bytes := 100, jpeg_size_bytes := 120, source_size_bytes := 1,
    blur_placeholder_hash := some "01234567",
    blur_placeholder_generated_at := some 50 }

/-- Witness for `c6_load_cache_fail_safe`: a cache file carrying version
`"0.9"` and one entry loads as the empty cache. -/
theorem c6_load_cache_fail_safe_witness :
    (some "0.9" ≠ some cacheVersion) ∧
    (load_cache ⟨[], 0⟩
      (.parsed (some "0.9") [("photos/a.jpg", sampleEntry)] 7)).entries = [] ∧
    (load_cache ⟨[], 0⟩ .malformed).entries = [] ∧
    (load_cache ⟨[], 0⟩ .notFound).entries = [] :=
  ⟨by decide,
    c6_load_cache_fail_safe ⟨[], 0⟩ (some "0.9") [("photos/a.jpg", sampleEntry)] 7
      (by decide)⟩

/-- Claim C9: given the precondition that the source file exists whenever
consulted, `should_regenerate` never raises and returns `True` exactly when no
entry exists or the current mtime strictly exceeds the stored one. -/
theorem c9_should_regenerate (c : BuildCache) (s : Sys) (p : String)
    (fd : FileData) (hex : s.file? p = some fd) :
    (∃ b, should_regenerate c s p = .ok b) ∧
    (should_regenerate c s p = .ok true ↔
      c.entries.lookup p = none ∨
        ∃ e, c.entries.lookup p = some e ∧ e.source_mtime < fd.mtime) := by
  cases hc : c.entries.lookup p with
  | none => simp [should_regenerate, hc]
  | some e =>
    simp [should_regenerate, hc, hex]

/-- Witness for `c9_should_regenerate`: a file whose mtime moved past the
stored one regenerates. -/
theorem c9_should_regenerate_witness :
    ((Sys.file? ⟨[("photos/a.jpg", ⟨[1], 101⟩)], 0⟩ "photos/a.jpg" =
        some ⟨[1], 101⟩) ∧
      should_regenerate ⟨[("photos/a.jpg", sampleEntry)], cacheVersion, 0⟩
        ⟨[("photos/a.jpg", ⟨[1], 101⟩)], 0⟩ "photos/a.jpg" = .ok true) ∧
    (∃ b, should_regenerate ⟨[("photos/a.jpg", sampleEntry)], cacheVersion, 0⟩
        ⟨[("photos/a.jpg", ⟨[1], 101⟩)], 0⟩ "photos/a.jpg" = .ok b) := by
  have h := c9_should_regenerate ⟨[("photos/a.jpg", sampleEntry)], cacheVersion, 0⟩
    ⟨[("photos/a.jpg", ⟨[1], 101⟩)], 0⟩ "photos/a.jpg" ⟨[1], 101⟩ (by decide)
  exact ⟨⟨by decide, h.2.mpr (Or.inr ⟨sampleEntry, by decide, by decide⟩)⟩, h.1⟩

/-- A matched leading block stays a leading block of itself plus anything. -/
theorem charsHasPre_append (l₁ l₂ : List Char) :
    charsHasPre l₁ (l₁ ++ l₂) = true := by
  induction l₁ with
  | nil => rfl
  | cons c cs ih => simp [charsHasPre, ih]

/-- A leading occurrence is an occurrence. -/
theorem charsContain_of_hasPre (pat l : List Char)
    (h : charsHasPre pat l = true) : charsContain pat l = true := by
  cases l with
  | nil => simpa [charsContain] using h
  | cons c cs => simp [charsContain, h]

/-- A contiguous occurrence anywhere is found by `charsContain`. -/
theorem charsContain_infix (pat l₁ l₂ : List Char) :
    charsContain pat (l₁ ++ (pat ++ l₂)) = true := by
  induction l₁ with
  | nil => exact charsContain_of_hasPre pat (pat ++ l₂) (charsHasPre_append pat l₂)
  | cons c cs ih => simp [charsContain, ih]

/-- The fresh thumbnail filename for a given stem and hash contains that hash
as a substring. -/
theorem strContainsSub_thumbFilename (stem chash ext : String) :
    strContainsSub (thumbFilename stem chash ext) chash = true := by
  have h := charsContain_infix chash.data (stem.data ++ ['-']) ext.data
  simpa [strContainsSub, thumbFilename] using h

/-- Claim C7 as stated is false: cleaning up after source stem `a` (current
hash `deadbeef`) deletes `a-b-12345678.webp`, which is exactly the fresh
output filename of the *different* source stem `a-b` with its current hash
`12345678` — the glob `a-*.webp` also matches files of any stem of the form
`a-…`, so cleanup for one source can delete, and collide with the fresh write
of, another source's current thumbnail. -/
theorem c7_counterexample :
    "a-b" ≠ "a" ∧
    thumbFilename "a-b" "12345678" ".webp" = "a-b-12345678.webp" ∧
    cleanup_old_thumbnails ["a-b-12345678.webp"] "a" "deadbeef" =
      ["a-b-12345678.webp"] := by
  exact ⟨by decide, by decide, by decide⟩

/-- Claim C7, amended: cleanup deletes exactly the listed files matching
`{stem}-*.webp` or `{stem}-*.jpg` whose name does not contain the current
hash as a substring; in particular it never deletes the same source's current
`.webp`/`.jpg` pair. Isolation between *different* sources, however, only
holds when no other source stem has the form `{stem}-…`
(see `c7_counterexample`). -/
theorem c7_amended (listing : List String) (stem chash : String) :
    (∀ n, n ∈ cleanup_old_thumbnails listing stem chash ↔
      (n ∈ listing ∧
        (globMatch stem ".webp" n = true ∨ globMatch stem ".jpg" n = true) ∧
        strContainsSub n chash = false)) ∧
    thumbFilename stem chash ".webp" ∉ cleanup_old_thumbnails listing stem chash ∧
    thumbFilename stem chash ".jpg" ∉ cleanup_old_thumbnails listing stem chash := by
  have hchar : ∀ n, n ∈ cleanup_old_thumbnails listing stem chash ↔
      (n ∈ listing ∧
        (globMatch stem ".webp" n = true ∨ globMatch stem ".jpg" n = true) ∧
        strContainsSub n chash = false) := by
    intro n
    simp only [cleanup_old_thumbnails, List.mem_filter, List.mem_append,
      Bool.not_eq_true', Bool.not_eq_true]
    constructor
    · rintro ⟨⟨hl, hm⟩ | ⟨hl, hm⟩, hh⟩
      · exact ⟨hl, Or.inl hm, hh⟩
      · exact ⟨hl, Or.inr hm, hh⟩
    · rintro ⟨hl, hm | hm, hh⟩
      · exact ⟨Or.inl ⟨hl, hm⟩, hh⟩
      · exact ⟨Or.inr ⟨hl, hm⟩, hh⟩
  refine ⟨hchar, ?_, ?_⟩
  · intro hmem
    have h := ((hchar _).mp hmem).2.2
    rw [strContainsSub_thumbFilename] at h
    simp at h
  · intro hmem
    have h := ((hchar _).mp hmem).2.2
    rw [strContainsSub_thumbFilename] at h
    simp at h

/-- Claim C10: with a configured starting JPEG quality below the loop floor of
10 (the field admits any value down to 1), the optimization loop never runs,
the after-loop read of `data_url` raises `UnboundLocalError`, the handler in
`generate_blur_placeholder` absorbs it, and the result is `None` for every
source — valid image or not. -/
theorem c10_low_quality_no_placeholder (o : Oracles) (s : Sys) (p : String)
    (config : BlurPlaceholderConfig) (hq : config.jpeg_quality < 10) :
    generate_blur_placeholder o s p config = none := by
  have hopt : ∀ img, optimize_data_url_size o img config.max_size_bytes
      config.jpeg_quality = .error .unboundLocal := by
    intro img
    unfold optimize_data_url_size optimizeLoop
    rw [dif_neg (by omega)]
  unfold generate_blur_placeholder blurAttempt
  cases hf : s.file? p with
  | none => rfl
  | some fd =>
    cases hd : o.decode fd.bytes with
    | none => simp [hd, Bind.bind, Except.bind, Pure.pure, Except.pure]
    | some img => simp [hd, hopt, Bind.bind, Except.bind, Pure.pure, Except.pure]

/-- Witness for `c10_low_quality_no_placeholder` with quality 5 on a decodable
image. -/
theorem c10_low_quality_no_placeholder_witness :
    (BlurPlaceholderConfig.jpeg_quality
      { enabled := true, target_size := 20, blur_radius := 10,
        jpeg_quality := 5, max_size_bytes := 1000 } < 10) ∧
    generate_blur_placeholder sampleOracles
      ⟨[("photos/a.jpg", ⟨[1], 100⟩)], 200⟩ "photos/a.jpg"
      { enabled := true, target_size := 20, blur_radius := 10,
        jpeg_quality := 5, max_size_bytes := 1000 } = none :=
  ⟨by decide,
    c10_low_quality_no_placeholder sampleOracles
      ⟨[("photos/a.jpg", ⟨[1], 100⟩)], 200⟩ "photos/a.jpg" _ (by decide)⟩

/-- Thumbnail configuration used by concrete runs (cache enabled). -/
def sampleThumbCfg : ThumbnailConfig :=
  { max_dimension := 800, webp_quality := 85, jpeg_quality := 90,
    output_dir := "thumbs", enable_cache := true,
    cache_file := "build/.build-cache.json" }

/-- Default-valued blur placeholder configuration (enabled). -/
def sampleBlurCfg : BlurPlaceholderConfig :=
  { enabled := true, target_size := 20, blur_radius := 10, jpeg_quality := 50,
    max_size_bytes := 1000 }

/-- A filesystem holding the source image (unchanged since the cached build:
mtime equal to the entry's) and both cached thumbnail files. -/
def c1Sys : Sys :=
  { files := [("photos/a.jpg", ⟨[1], 100⟩),
      ("thumbs/a-01234567.webp", ⟨[2, 2], 60⟩),
      ("thumbs/a-01234567.jpg", ⟨[3, 3], 60⟩)],
    now := 200 }

/-- A build cache holding a fully valid entry for the source. -/
def c1Cache : BuildCache :=
  { entries := [("photos/a.jpg", sampleEntry)], cache_version := cacheVersion,
    last_updated := 50 }

/-- Claim C1 names the cache-hit-with-blur-placeholders path as one that
returns normally. The code disagrees: `_load_from_cache` reads
`cache_entry.blur_placeholder_data_url`, a field `CacheEntry` does not
declare, outside any `try`, so on a cache hit with blur placeholders enabled
and a valid entry `generate_thumbnail` raises `AttributeError` even though
the source file exists. -/
theorem c1_cache_hit_blur_raises :
    (c1Sys.file? "photos/a.jpg").isSome = true ∧
    sampleEntry.is_valid (hash_file sampleOracles ⟨[1], 100⟩)
      sampleBlurCfg.enabled = true ∧
    generate_thumbnail sampleOracles sampleThumbCfg sampleBlurCfg c1Cache c1Sys
      "photos/a.jpg" = .error .attributeError := by
  exact ⟨by decide, by decide, by rfl⟩

/-- Reading the undeclared blur-data field always raises. -/
theorem cacheEntryAttr_blur_data_url :
    cacheEntryAttr "blur_placeholder_data_url" = .error .attributeError := by
  rfl

/-- A pydantic `ThumbnailImage` construction succeeds exactly on the argument,
validated. -/
theorem mkThumbnailImage_ok {r t : ThumbnailImage}
    (h : mkThumbnailImage r = .ok t) : t = r ∧ r.pydValid = true := by
  unfold mkThumbnailImage at h
  by_cases hv : r.pydValid
  · simp [hv] at h
    exact ⟨h.symm, hv⟩
  · simp [hv] at h

/-- The validated fields of a `ThumbnailImage` that passed construction. -/
theorem thumb_pydValid_fields {t : ThumbnailImage} (h : t.pydValid = true) :
    0 < t.width ∧ 0 < t.height ∧ t.content_hash.length = 8 := by
  simp only [ThumbnailImage.pydValid, Bool.and_eq_true, decide_eq_true_eq,
    beq_iff_eq] at h
  exact ⟨h.1.1.1.1.1.2, h.1.1.1.1.2, h.2⟩

/-- A cache entry that passed `is_valid` stores exactly the current source
hash. -/
theorem is_valid_content_hash {e : CacheEntry} {ch : String} {b : Bool}
    (h : e.is_valid ch b = true) : e.content_hash = ch := by
  unfold CacheEntry.is_valid at h
  by_cases h1 : b && e.blur_placeholder_hash.isNone
  · simp [h1] at h
  · simp only [h1, if_false] at h
    by_cases h2 : e.content_hash != ch
    · simp [h2] at h
    · simpa using h2

/-- An `Except` whose `some`-wrapping is a successful `some` was successful. -/
theorem except_map_some_ok {ε α : Type} {x : Except ε α} {t : α}
    (h : x.map some = .ok (some t)) : x = .ok t := by
  cases x with
  | error e => simp [Except.map] at h
  | ok u => simp [Except.map] at h; rw [h]

/-- A cache hit that `_load_from_cache` turns into a `ThumbnailImage` passed
pydantic validation and carries the current source hash (via `is_valid`). -/
theorem load_from_cache_ok_some {o : Oracles} {bcfg : BlurPlaceholderConfig}
    {cache : BuildCache} {s : Sys} {p : String} {fd : FileData}
    {t : ThumbnailImage}
    (h : load_from_cache o bcfg cache s p fd = .ok (some t)) :
    t.pydValid = true ∧ t.content_hash = hash_file o fd := by
  unfold load_from_cache at h
  cases hl : cache.entries.lookup p with
  | none => rw [hl] at h; simp [Pure.pure, Except.pure] at h
  | some e =>
    rw [hl] at h
    by_cases hv : e.is_valid (hash_file o fd) bcfg.enabled
    case neg =>
      simp only [Bool.not_eq_true] at hv
      simp [hv, Pure.pure, Except.pure] at h
    case pos =>
      simp only [hv, Bool.not_true, if_false, Bool.false_eq_true] at h
      cases hw : s.file? e.webp_path with
      | none => simp [hw, Pure.pure, Except.pure] at h
      | some wfd =>
        cases hj : s.file? e.jpeg_path with
        | none => simp [hw, hj, Pure.pure, Except.pure] at h
        | some jfd =>
          simp only [hw, hj] at h
          have hfinal : ∀ tw th wsz jsz ssz : Nat,
              ((do
                let blur ← do
                  if bcfg.enabled then do
                    let _ ← cacheEntryAttr "blur_placeholder_data_url"
                    pure (generate_blur_placeholder o s p bcfg)
                  else pure none
                (mkThumbnailImage
                  { source_filename := pathBaseName p, source_path := p,
                    webp_path := e.webp_path, jpeg_path := e.jpeg_path,
                    width := tw, height := th,
                    webp_size_bytes := wsz, jpeg_size_bytes := jsz,
                    source_size_bytes := ssz,
                    content_hash := e.content_hash,
                    generated_at := e.thumbnail_generated_at,
                    metadata_stripped := e.metadata_stripped,
                    metadata_strip_warning := none,
                    blur_placeholder := blur }).map some :
                Except PyErr (Option ThumbnailImage)) = .ok (some t)) →
              t.pydValid = true ∧ t.content_hash = e.content_hash := by
            intro tw th wsz jsz ssz hrun
            cases henb : bcfg.enabled with
            | true =>
              rw [henb] at hrun
              simp [cacheEntryAttr_blur_data_url, Bind.bind, Except.bind] at hrun
            | false =>
              rw [henb] at hrun
              simp only [if_false, Bool.false_eq_true, Bind.bind, Except.bind,
                Pure.pure, Except.pure] at hrun
              obtain ⟨ht, hval⟩ := mkThumbnailImage_ok (except_map_some_ok hrun)
              subst ht
              exact ⟨hval, rfl⟩
          have hch : e.content_hash = hash_file o fd := is_valid_content_hash hv
          by_cases hwh : 0 < e.width ∧ 0 < e.height
          · simp only [hwh, if_true] at h
            have := hfinal e.width e.height e.webp_size_bytes e.jpeg_size_bytes
              e.source_size_bytes h
            exact ⟨this.1, hch ▸ this.2⟩
          · simp only [hwh, if_false] at h
            cases hdec : o.decode wfd.bytes with
            | none => simp [hdec, Pure.pure, Except.pure] at h
            | some thumb =>
              simp only [hdec] at h
              have := hfinal thumb.width thumb.height wfd.bytes.length
                jfd.bytes.length fd.bytes.length h
              exact ⟨this.1, hch ▸ this.2⟩

/-- A fresh generation that succeeded passed pydantic validation and stamped
the record with the hash of the source bytes. -/
theorem generate_fresh_ok {o : Oracles} {cfg : ThumbnailConfig}
    {bcfg : BlurPlaceholderConfig} {s : Sys} {p : String} {fd : FileData}
    {t : ThumbnailImage}
    (h : generate_fresh o cfg bcfg s p fd = .ok t) :
    t.pydValid = true ∧ t.content_hash = hash_bytes o fd.bytes := by
  unfold generate_fresh at h
  cases hm : extract_metadata o s p with
  | error e => simp [hm, Bind.bind, Except.bind] at h
  | ok md =>
    simp only [hm, Bind.bind, Except.bind] at h
    cases hd : o.decode fd.bytes with
    | none => simp [hd] at h
    | some img =>
      simp only [hd, Pure.pure, Except.pure] at h
      obtain ⟨ht, hval⟩ := mkThumbnailImage_ok h
      subst ht
      exact ⟨hval, rfl⟩

/-- Claim C8: every `ThumbnailImage` that `generate_thumbnail` returns has
strictly positive width and height, and its content hash is the first 8
characters of the SHA-256 hex digest of the source bytes — whether it came
from the cache (via `is_valid`) or was freshly generated. Under the stated
behavior of `hexdigest()` (64 lowercase hex characters) the hash is exactly 8
lowercase hex characters. -/
theorem c8_thumbnail_invariants (o : Oracles) (cfg : ThumbnailConfig)
    (bcfg : BlurPlaceholderConfig) (cache : BuildCache) (s : Sys) (p : String)
    (fd : FileData) (cache' : BuildCache) (t : ThumbnailImage)
    (ho : ∀ bs, (o.sha256hex bs).length = 64 ∧
      (o.sha256hex bs).data.all isHexLowerChar = true)
    (hfd : s.file? p = some fd)
    (h : generate_thumbnail o cfg bcfg cache s p = .ok (cache', some t)) :
    0 < t.width ∧ 0 < t.height ∧
    t.content_hash = pyStrTake contentHashLength (o.sha256hex fd.bytes) ∧
    t.content_hash.length = contentHashLength ∧
    t.content_hash.data.all isHexLowerChar = true := by
  have key : t.pydValid = true ∧ t.content_hash = hash_bytes o fd.bytes := by
    unfold generate_thumbnail at h
    rw [hfd] at h
    simp only [Bind.bind, Except.bind, Pure.pure, Except.pure] at h
    have hfresh : ∀ f : ThumbnailImage → BuildCache,
        ((match generate_fresh o cfg bcfg s p fd with
          | .error _ => (Except.ok (cache, none) :
              Except PyErr (BuildCache × Option ThumbnailImage))
          | .ok u => Except.ok (f u, some u)) = .ok (cache', some t)) →
        t.pydValid = true ∧ t.content_hash = hash_bytes o fd.bytes := by
      intro f hh
      cases hgf : generate_fresh o cfg bcfg s p fd with
      | error e => rw [hgf] at hh; simp at hh
      | ok u =>
        rw [hgf] at hh
        simp only [Except.ok.injEq, Prod.mk.injEq, Option.some.injEq] at hh
        exact hh.2 ▸ generate_fresh_ok hgf
    cases hec : cfg.enable_cache with
    | false =>
      rw [hec] at h
      simp only [Bool.false_eq_true, if_false] at h
      exact hfresh _ h
    | true =>
      rw [hec] at h
      simp only [if_true] at h
      cases hl : cache.entries.lookup p with
      | none =>
        have hsr : should_regenerate cache s p = .ok true := by
          simp [should_regenerate, hl]
        rw [hsr] at h
        simp only [Bool.not_true, Bool.false_eq_true, if_false] at h
        exact hfresh _ h
      | some e =>
        have hsr : should_regenerate cache s p =
            .ok (decide (e.source_mtime < fd.mtime)) := by
          simp [should_regenerate, hl, hfd]
        rw [hsr] at h
        cases hcmp : decide (e.source_mtime < fd.mtime) with
        | true =>
          rw [hcmp] at h
          simp only [Bool.not_true, Bool.false_eq_true, if_false] at h
          exact hfresh _ h
        | false =>
          rw [hcmp] at h
          simp only [Bool.not_false, if_true] at h
          cases hlc : load_from_cache o bcfg cache s p fd with
          | error err => rw [hlc] at h; simp at h
          | ok hit =>
            rw [hlc] at h
            cases hit with
            | none =>
              simp only [Bool.not_false, if_true] at h
              exact hfresh _ h
            | some u =>
              simp only [Except.ok.injEq, Prod.mk.injEq,
                Option.some.injEq] at h
              have := load_from_cache_ok_some hlc
              exact h.2 ▸ this
  obtain ⟨hval, hch⟩ := key
  obtain ⟨hw, hh2, hlen⟩ := thumb_pydValid_fields hval
  refine ⟨hw, hh2, hch, hlen, ?_⟩
  rw [hch]
  show ((o.sha256hex fd.bytes).data.take contentHashLength).all isHexLowerChar = true
  have hx := (ho fd.bytes).2
  rw [List.all_eq_true] at hx ⊢
  intro c hc
  exact hx c (List.take_subset _ _ hc)

/-- Thumbnail configuration with caching disabled. -/
def c8Cfg : ThumbnailConfig := { sampleThumbCfg with enable_cache := false }

/-- Blur placeholders disabled. -/
def c8Blur : BlurPlaceholderConfig := { sampleBlurCfg with enabled := false }

/-- A filesystem holding one decodable source image. -/
def c8Sys : Sys := { files := [("photos/a.jpg", ⟨[1], 100⟩)], now := 200 }

/-- A concrete fresh-generation run. -/
def c8Run : Except PyErr (BuildCache × Option ThumbnailImage) :=
  generate_thumbnail sampleOracles c8Cfg c8Blur (BuildCache.empty 0) c8Sys
    "photos/a.jpg"

/-- A placeholder record (never a valid thumbnail). -/
def dummyThumb : ThumbnailImage :=
  { source_filename := "", source_path := "", webp_path := "", jpeg_path := "",
    width := 0, height := 0, webp_size_bytes := 0, jpeg_size_bytes := 0,
    source_size_bytes := 0, content_hash := "", generated_at := 0,
    metadata_stripped := false, metadata_strip_warning := none,
    blur_placeholder := none }

/-- The thumbnail produced by `c8Run`. -/
def c8Thumb : ThumbnailImage :=
  match c8Run with
  | .ok (_, some t) => t
  | _ => dummyThumb

/-- The cache state after `c8Run`. -/
def c8CacheOut : BuildCache :=
  match c8Run with
  | .ok (c, _) => c
  | _ => BuildCache.empty 0

/-- Witness for `c8_thumbnail_invariants` on a concrete fresh generation. -/
theorem c8_thumbnail_invariants_witness :
    (c8Sys.file? "photos/a.jpg" = some ⟨[1], 100⟩) ∧
    (0 < c8Thumb.width ∧ 0 < c8Thumb.height ∧
      c8Thumb.content_hash =
        pyStrTake contentHashLength (sampleOracles.sha256hex [1]) ∧
      c8Thumb.content_hash.length = contentHashLength ∧
      c8Thumb.content_hash.data.all isHexLowerChar = true) := by
  have ho : ∀ bs : List Nat, (sampleOracles.sha256hex bs).length = 64 ∧
      (sampleOracles.sha256hex bs).data.all isHexLowerChar = true := by
    intro bs
    constructor
    · show sampleHash.length = 64
      decide
    · show sampleHash.data.all isHexLowerChar = true
      decide
  exact ⟨by rfl,
    c8_thumbnail_invariants sampleOracles c8Cfg c8Blur (BuildCache.empty 0)
      c8Sys "photos/a.jpg" ⟨[1], 100⟩ c8CacheOut c8Thumb ho (by rfl) (by rfl)⟩

/-! ### The batch contract (claim C2) -/

/-- A source path that decodes to a well-formed image: the conditions under
which every validator on the fresh-generation path passes. -/
def GoodSource (o : Oracles) (s : Sys) (p : String) : Prop :=
  1 ≤ (pathBaseName p).length ∧
  ∃ fd img, s.file? p = some fd ∧ fd.bytes ≠ [] ∧
    o.decode fd.bytes = some img ∧ 0 < img.width ∧ 0 < img.height ∧
    (match img.exifOrientation with
     | none => True
     | some x => 1 ≤ x ∧ x ≤ 8) ∧
    1 ≤ img.frameCount

/-- Sanity of the external collaborators: digests are at least 8 characters
long, encoders never emit empty files, and PIL's transpose and `thumbnail`
(which never shrinks below 1 px) keep dimensions positive. -/
def OraclesOk (o : Oracles) : Prop :=
  (∀ bs, 8 ≤ (o.sha256hex bs).length) ∧
  (∀ img q, 0 < o.webpLen img q) ∧
  (∀ img q, 0 < o.jpegLen img q) ∧
  (∀ img, 0 < img.width → 0 < img.height →
    0 < (o.exifTranspose img).width ∧ 0 < (o.exifTranspose img).height) ∧
  (∀ img w h, 0 < img.width → 0 < img.height →
    0 < (o.resizeTo img w h).width ∧ 0 < (o.resizeTo img w h).height)

/-- Mode conversion does not change dimensions. -/
theorem convert_to_rgb_dims (img : PILImg) :
    (convert_to_rgb img).width = img.width ∧
    (convert_to_rgb img).height = img.height := by
  unfold convert_to_rgb
  constructor
  · split
    · rfl
    · split <;> rfl
  · split
    · rfl
    · split <;> rfl

/-- A record that passes all validators constructs successfully. -/
theorem mkThumbnailImage_ok_of_valid {r : ThumbnailImage}
    (h : r.pydValid = true) : mkThumbnailImage r = .ok r := by
  unfold mkThumbnailImage
  rw [if_pos h]

/-- With no cache entry for the path, `generate_thumbnail` always takes the
fresh-generation route. -/
theorem generate_thumbnail_no_entry {o : Oracles} {cfg : ThumbnailConfig}
    {bcfg : BlurPlaceholderConfig} {cache : BuildCache} {s : Sys} {p : String}
    {fd : FileData}
    (hl : cache.entries.lookup p = none) (hfd : s.file? p = some fd) :
    generate_thumbnail o cfg bcfg cache s p =
      match generate_fresh o cfg bcfg s p fd with
      | .error _ => .ok (cache, none)
      | .ok t => .ok ((if cfg.enable_cache then cache.update_entry s p fd t
          else cache), some t) := by
  unfold generate_thumbnail
  rw [hfd]
  simp only [Bind.bind, Except.bind, Pure.pure, Except.pure]
  cases hec : cfg.enable_cache with
  | false => simp
  | true =>
    have hsr : should_regenerate cache s p = .ok true := by
      simp [should_regenerate, hl]
    rw [hsr]
    simp

/-- A garbage source (existing file, undecodable bytes) makes the fresh path
raise inside the `try`, which `generate_thumbnail` absorbs into `None`;
the cache is left untouched. -/
theorem generate_thumbnail_bad {o : Oracles} {cfg : ThumbnailConfig}
    {bcfg : BlurPlaceholderConfig} {cache : BuildCache} {s : Sys} {p : String}
    {fd : FileData}
    (hl : cache.entries.lookup p = none) (hfd : s.file? p = some fd)
    (hdec : o.decode fd.bytes = none) :
    generate_thumbnail o cfg bcfg cache s p = .ok (cache, none) := by
  rw [generate_thumbnail_no_entry hl hfd]
  have hgf : generate_fresh o cfg bcfg s p fd = .error .unidentifiedImage := by
    unfold generate_fresh extract_metadata
    rw [hfd]
    simp [hdec, Bind.bind, Except.bind, Pure.pure, Except.pure]
  rw [hgf]

/-- A good source makes the fresh path succeed end to end. -/
theorem generate_fresh_succeeds {o : Oracles} (cfg : ThumbnailConfig)
    (bcfg : BlurPlaceholderConfig) {s : Sys} {p : String} {fd : FileData}
    {img : PILImg}
    (hOk : OraclesOk o)
    (hfd : s.file? p = some fd)
    (hname : 1 ≤ (pathBaseName p).length)
    (hbytes : fd.bytes ≠ [])
    (hdec : o.decode fd.bytes = some img)
    (hw : 0 < img.width) (hh : 0 < img.height)
    (hor : match img.exifOrientation with
      | none => True
      | some x => 1 ≤ x ∧ x ≤ 8)
    (hfc : 1 ≤ img.frameCount) :
    ∃ t, generate_fresh o cfg bcfg s p fd = .ok t := by
  obtain ⟨hhash, hwebp, hjpeg, htrans, hres⟩ := hOk
  have hmdval : ImageMetadata.pydValid
      { filename := pathBaseName p, file_path := p,
        format := img.format.getD "UNKNOWN",
        width := img.width, height := img.height,
        file_size_bytes := fd.bytes.length,
        color_mode := img.mode,
        has_transparency := img.mode.data.contains 'A',
        exif_orientation := img.exifOrientation,
        is_animated := img.isAnimated, frame_count := img.frameCount } = true := by
    simp only [ImageMetadata.pydValid, Bool.and_eq_true, decide_eq_true_eq]
    refine ⟨⟨⟨⟨⟨hname, hw⟩, hh⟩, ?_⟩, ?_⟩, hfc⟩
    · exact List.length_pos.mpr hbytes
    · cases hx : img.exifOrientation with
      | none => simp
      | some x =>
        rw [hx] at hor
        simp only [Bool.and_eq_true, decide_eq_true_eq]
        exact hor
  have hmd : extract_metadata o s p = .ok
      { filename := pathBaseName p, file_path := p,
        format := img.format.getD "UNKNOWN",
        width := img.width, height := img.height,
        file_size_bytes := fd.bytes.length,
        color_mode := img.mode,
        has_transparency := img.mode.data.contains 'A',
        exif_orientation := img.exifOrientation,
        is_animated := img.isAnimated, frame_count := img.frameCount } := by
    unfold extract_metadata
    rw [hfd]
    simp only [hdec, Bind.bind, Except.bind, Pure.pure, Except.pure]
    unfold mkImageMetadata
    rw [if_pos hmdval]
  have hprep : 0 < (prepare_image o img).width ∧
      0 < (prepare_image o img).height := by
    unfold prepare_image
    obtain ⟨ha, hb⟩ := htrans img hw hh
    obtain ⟨hc, hd⟩ := convert_to_rgb_dims (o.exifTranspose img)
    exact ⟨hc ▸ ha, hd ▸ hb⟩
  have hthumb : 0 < (create_thumbnail o cfg (prepare_image o img)).width ∧
      0 < (create_thumbnail o cfg (prepare_image o img)).height := by
    unfold create_thumbnail
    exact hres _ _ _ hprep.1 hprep.2
  unfold generate_fresh
  rw [hmd]
  simp only [Bind.bind, Except.bind, Pure.pure, Except.pure, hdec]
  refine ⟨_, mkThumbnailImage_ok_of_valid ?_⟩
  simp only [ThumbnailImage.pydValid, Bool.and_eq_true, decide_eq_true_eq,
    beq_iff_eq]
  refine ⟨⟨⟨⟨⟨⟨hname, hthumb.1⟩, hthumb.2⟩, ?_⟩, ?_⟩, ?_⟩, ?_⟩
  · exact hwebp _ _
  · exact hjpeg _ _
  · exact List.length_pos.mpr hbytes
  · show (hash_bytes o fd.bytes).length = 8
    have h8 : 8 ≤ (o.sha256hex fd.bytes).data.length := hhash fd.bytes
    show (List.take contentHashLength (o.sha256hex fd.bytes).data).length = 8
    rw [List.length_take]
    unfold contentHashLength
    omega

/-- A good source path with no cache entry yields a fresh thumbnail and the
corresponding cache update. -/
theorem generate_thumbnail_good {o : Oracles} (cfg : ThumbnailConfig)
    (bcfg : BlurPlaceholderConfig) {cache : BuildCache} {s : Sys} {p : String}
    (hOk : OraclesOk o) (hl : cache.entries.lookup p = none)
    (hg : GoodSource o s p) :
    ∃ fd t, s.file? p = some fd ∧
      generate_thumbnail o cfg bcfg cache s p =
        .ok ((if cfg.enable_cache then cache.update_entry s p fd t else cache),
          some t) := by
  obtain ⟨hname, fd, img, hfd, hbytes, hdec, hw, hh, hor, hfc⟩ := hg
  obtain ⟨t, ht⟩ := generate_fresh_succeeds cfg bcfg
    hOk hfd hname hbytes hdec hw hh hor hfc
  refine ⟨fd, t, hfd, ?_⟩
  rw [generate_thumbnail_no_entry hl hfd, ht]

/-- The pre-step `needs_regen` bookkeeping in `generate_batch` succeeds and is
transparent when the path has no cache entry. -/
theorem batch_step_eq {o : Oracles} {cfg : ThumbnailConfig}
    {bcfg : BlurPlaceholderConfig} {cache : BuildCache} {s : Sys} {p : String}
    (hl : cache.entries.lookup p = none) :
    ((do
      let _needs_regen ←
        if cfg.enable_cache then should_regenerate cache s p else pure true
      generate_thumbnail o cfg bcfg cache s p) :
        Except PyErr (BuildCache × Option ThumbnailImage)) =
      generate_thumbnail o cfg bcfg cache s p := by
  cases hec : cfg.enable_cache with
  | false => simp [Bind.bind, Except.bind, Pure.pure, Except.pure]
  | true =>
    have hsr : should_regenerate cache s p = .ok true := by
      simp [should_regenerate, hl]
    simp [hsr, Bind.bind, Except.bind]

/-- Unfolding one step of `generate_batch` when the head path has no cache
entry and its processing returns normally. -/
theorem generate_batch_cons {o : Oracles} {cfg : ThumbnailConfig}
    {bcfg : BlurPlaceholderConfig} {cache : BuildCache} {s : Sys} {p : String}
    {rest : List String} {cache₂ : BuildCache} {t? : Option ThumbnailImage}
    (hl : cache.entries.lookup p = none)
    (hthumb : generate_thumbnail o cfg bcfg cache s p = .ok (cache₂, t?)) :
    generate_batch o cfg bcfg cache s (p :: rest) =
      ((generate_batch o cfg bcfg cache₂ s rest).1,
        (match t? with
          | some t => t :: (generate_batch o cfg bcfg cache₂ s rest).2.1
          | none => (generate_batch o cfg bcfg cache₂ s rest).2.1),
        (generate_batch o cfg bcfg cache₂ s rest).2.2) := by
  conv_lhs => rw [generate_batch]
  rw [batch_step_eq hl]
  simp only [hthumb]
  cases t? <;> rfl

/-- Overwriting the entry of one path leaves every other path's lookup
unchanged. -/
theorem lookup_update_entry_ne {cache : BuildCache} {s : Sys} {p : String}
    {fd : FileData} {t : ThumbnailImage} {q : String} (hq : q ≠ p) :
    (cache.update_entry s p fd t).entries.lookup q =
      cache.entries.lookup q := by
  have hbeq : (q == p) = false := beq_eq_false_iff_ne.mpr hq
  simp [BuildCache.update_entry, List.lookup, hbeq]

/-- A batch of pairwise-distinct, uncached, good sources succeeds completely:
one record per source and an empty failed list. -/
theorem generate_batch_all_good {o : Oracles} (cfg : ThumbnailConfig)
    (bcfg : BlurPlaceholderConfig) {s : Sys} (hOk : OraclesOk o) :
    ∀ (paths : List String) (cache : BuildCache),
      (∀ p ∈ paths, cache.entries.lookup p = none) →
      paths.Nodup →
      (∀ p ∈ paths, GoodSource o s p) →
      (generate_batch o cfg bcfg cache s paths).2.1.length = paths.length ∧
      (generate_batch o cfg bcfg cache s paths).2.2 = []
  | [], cache, _, _, _ => by simp [generate_batch]
  | p :: rest, cache, hEmpty, hNodup, hGood => by
    have hlp : cache.entries.lookup p = none := hEmpty p (by simp)
    obtain ⟨fd, t, hfd, hthumb⟩ :=
      generate_thumbnail_good cfg bcfg hOk hlp
        (hGood p (by simp))
    rw [generate_batch_cons hlp hthumb]
    have hrest : ∀ q ∈ rest,
        ((if cfg.enable_cache then cache.update_entry s p fd t
          else cache)).entries.lookup q = none := by
      intro q hq
      have hqp : q ≠ p := by
        intro he
        subst he
        exact (List.nodup_cons.mp hNodup).1 hq
      cases cfg.enable_cache with
      | false => exact hEmpty q (by simp [hq])
      | true =>
        simp only [if_true]
        rw [lookup_update_entry_ne hqp]
        exact hEmpty q (by simp [hq])
    have ih := generate_batch_all_good cfg bcfg hOk rest
      (if cfg.enable_cache then cache.update_entry s p fd t else cache)
      hrest (List.nodup_cons.mp hNodup).2
      (fun q hq => hGood q (by simp [hq]))
    simp [ih.1, ih.2]

/-- Claim C2, amended: for a batch of pairwise-distinct, uncached source paths
in which exactly one path is an existing file of undecodable garbage bytes
and the rest are good images, `generate_batch` returns N−1 successful records
and an *empty* failed list — the garbage path is skipped silently rather than
reported, because `generate_thumbnail` absorbs the decode error and returns
`None`, and only a raised exception reaches the `failed` list. -/
theorem c2_amended {o : Oracles} (cfg : ThumbnailConfig)
    (bcfg : BlurPlaceholderConfig) {s : Sys} (hOk : OraclesOk o) :
    ∀ (paths : List String) (cache : BuildCache) (p₀ : String),
      (∀ p ∈ paths, cache.entries.lookup p = none) →
      paths.Nodup →
      p₀ ∈ paths →
      (∃ fd, s.file? p₀ = some fd ∧ o.decode fd.bytes = none) →
      (∀ p ∈ paths, p ≠ p₀ → GoodSource o s p) →
      (generate_batch o cfg bcfg cache s paths).2.1.length =
        paths.length - 1 ∧
      (generate_batch o cfg bcfg cache s paths).2.2 = []
  | [], _, _, _, _, hMem, _, _ => by cases hMem
  | p :: rest, cache, p₀, hEmpty, hNodup, hMem, hBad, hGood => by
    have hlp : cache.entries.lookup p = none := hEmpty p (by simp)
    by_cases hpp : p = p₀
    · -- the garbage path: skipped silently, cache untouched
      subst hpp
      obtain ⟨fd, hfd, hdec⟩ := hBad
      rw [generate_batch_cons hlp (generate_thumbnail_bad hlp hfd hdec)]
      have hrest := generate_batch_all_good cfg bcfg hOk rest
        cache (fun q hq => hEmpty q (by simp [hq]))
        (List.nodup_cons.mp hNodup).2
        (fun q hq => hGood q (by simp [hq])
          (fun he => (List.nodup_cons.mp hNodup).1 (he ▸ hq)))
      simp [hrest.1, hrest.2]
    · -- a good path: processed, recurse
      have hg : GoodSource o s p := hGood p (by simp) hpp
      obtain ⟨fd, t, hfd, hthumb⟩ :=
        generate_thumbnail_good cfg bcfg hOk hlp hg
      rw [generate_batch_cons hlp hthumb]
      have hmem₀ : p₀ ∈ rest := by
        cases hMem with
        | head => exact absurd rfl hpp
        | tail _ h => exact h
      have hrest : ∀ q ∈ rest,
          ((if cfg.enable_cache then cache.update_entry s p fd t
            else cache)).entries.lookup q = none := by
        intro q hq
        have hqp : q ≠ p := by
          intro he
          subst he
          exact (List.nodup_cons.mp hNodup).1 hq
        cases cfg.enable_cache with
        | false => exact hEmpty q (by simp [hq])
        | true =>
          simp only [if_true]
          rw [lookup_update_entry_ne hqp]
          exact hEmpty q (by simp [hq])
      have ih := c2_amended cfg bcfg hOk rest
        (if cfg.enable_cache then cache.update_entry s p fd t else cache) p₀
        hrest (List.nodup_cons.mp hNodup).2 hmem₀ hBad
        (fun q hq hqne => hGood q (by simp [hq]) hqne)
      have hlen : 1 ≤ rest.length := List.length_pos.mpr
        (List.ne_nil_of_mem hmem₀)
      constructor
      · simp only [List.length_cons, ih.1]
        omega
      · simp [ih.2]

/-- A filesystem with one garbage file (`[9]` does not decode) and one valid
image (`[1]` decodes to `sampleImg`). -/
def c2Sys : Sys :=
  { files := [("photos/bad.jpg", ⟨[9], 100⟩), ("photos/a.jpg", ⟨[1], 100⟩)],
    now := 200 }

/-- The concrete batch over the garbage file and the valid image, with an
empty initial cache. -/
def c2Run : BuildCache × List ThumbnailImage × List String :=
  generate_batch sampleOracles sampleThumbCfg c8Blur (BuildCache.empty 0) c2Sys
    ["photos/bad.jpg", "photos/a.jpg"]

/-- Claim C2 as stated is false: with N = 2 paths, one garbage and one valid
(both existing), `generate_batch` does return N−1 = 1 successful record and
does not raise, but the failed list is *empty*, not of length 1 — the garbage
path lands in neither component, because `generate_thumbnail` absorbs its
decode error into `None` and `generate_batch` appends to `failed` only when
an exception is raised. -/
theorem c2_counterexample :
    sampleOracles.decode [9] = none ∧
    sampleOracles.decode [1] = some sampleImg ∧
    c2Run.2.1.length = 1 ∧
    c2Run.2.2 = [] ∧
    ¬ c2Run.2.2.length = 1 := by
  refine ⟨by rfl, by rfl, by rfl, by rfl, ?_⟩
  intro hcon
  have h0 : c2Run.2.2 = [] := by rfl
  rw [h0] at hcon
  simp at hcon

/-- The sample oracles satisfy the collaborator sanity conditions. -/
theorem sampleOraclesOk : OraclesOk sampleOracles := by
  refine ⟨?_, ?_, ?_, ?_, ?_⟩
  · intro bs
    show (8 : Nat) ≤ sampleHash.length
    decide
  · intro img q
    show (0 : Nat) < 100
    decide
  · intro img q
    show (0 : Nat) < 120
    decide
  · intro img h1 h2
    exact ⟨h1, h2⟩
  · intro img w h h1 h2
    constructor <;>
      exact Nat.lt_of_lt_of_le Nat.zero_lt_one (Nat.le_max_left 1 _)

/-- Witness for `c2_amended` on the concrete two-path batch of `c2Run`. -/
theorem c2_amended_witness :
    (generate_batch sampleOracles sampleThumbCfg c8Blur (BuildCache.empty 0)
        c2Sys ["photos/bad.jpg", "photos/a.jpg"]).2.1.length =
      (["photos/bad.jpg", "photos/a.jpg"] : List String).length - 1 ∧
    (generate_batch sampleOracles sampleThumbCfg c8Blur (BuildCache.empty 0)
        c2Sys ["photos/bad.jpg", "photos/a.jpg"]).2.2 = [] := by
  refine c2_amended sampleThumbCfg c8Blur sampleOraclesOk
    ["photos/bad.jpg", "photos/a.jpg"]
    (BuildCache.empty 0) "photos/bad.jpg" ?_ ?_ ?_ ?_ ?_
  · intro p _
    rfl
  · decide
  · simp
  · exact ⟨⟨[9], 100⟩, rfl, rfl⟩
  · intro p hp hne
    simp only [List.mem_cons, List.mem_singleton] at hp
    rcases hp with rfl | rfl | h
    · exact absurd rfl hne
    · refine ⟨by decide, ⟨[1], 100⟩, sampleImg, rfl, by decide, rfl,
        by decide, by decide, ?_, by decide⟩
      show True
      trivial
    · cases h

end Exposure
